import Mathlib

/-!
Verification of the role-based data disclosure and field-level encryption
engine of the hospital-management repository (`anonymizer.py`).

The Python module is shallowly embedded below.  The external Fernet cipher
(from the `cryptography` library) is not repository code; it is abstracted as
a pair of functions `enc : String → String` (encryption of one field value)
and `dec : String → Option String` (decryption, `none` standing for the
`InvalidToken` exception raised on corrupt, tampered or wrong-key input).
The repository's wrappers `encrypt_data` / `decrypt_data` and every
anonymization transform are translated directly from the source.

Python strings are modelled as Lean `String` (both index by code points),
`patient_id : int` as `Nat` (database ids are nonnegative), timestamps as an
opaque `String` field, and the patient dict as a structure with the five keys
the engine reads and writes.
-/

/-- The patient record / disclosure view shape: the five keys of the dict
consumed and produced by `prepare_patient_data_for_role`. -/
structure PatientData where
  patient_id : Nat
  name : String
  contact : String
  diagnosis : String
  date_added : String
  deriving Repr, DecidableEq

/-- `encrypt_data` (anonymizer.py lines 39-54): `if not data: return ""`,
otherwise the Fernet cipher output.  The cipher itself is the parameter
`enc`. -/
def encrypt_data (enc : String → String) (data : String) : String :=
  if data = "" then "" else enc data

/-- `decrypt_data` (anonymizer.py lines 57-75): `if not encrypted_data:
return ""`; otherwise try the cipher and return `"[Decryption Error]"` on any
exception.  The cipher is the parameter `dec`, with `none` standing for a
raised exception (InvalidToken etc.). -/
def decrypt_data (dec : String → Option String) (encrypted_data : String) : String :=
  if encrypted_data = "" then ""
  else
    match dec encrypted_data with
    | some plain => plain
    | none => "[Decryption Error]"

/-- `anonymize_name` (anonymizer.py lines 78-88): `f"ANON_{patient_id}"`. -/
def anonymize_name (patient_id : Nat) : String :=
  "ANON_" ++ toString patient_id

/-- `anonymize_contact` (anonymizer.py lines 91-105): fully redacted
placeholder when empty or shorter than 4 characters, otherwise the fixed
prefix followed by `contact[-4:]` (the last four code points, verbatim). -/
def anonymize_contact (contact : String) : String :=
  if contact = "" ∨ contact.length < 4 then "XXX-XXX-XXXX"
  else
    let last_four := contact.drop (contact.length - 4)
    "XXX-XXX-" ++ last_four

/-- Python's substring test `needle in haystack`, on lists of characters:
true iff `needle` is a prefix of some suffix of `haystack`. -/
def listContains (needle : List Char) : List Char → Bool
  | [] => needle.isPrefixOf ([] : List Char)
  | c :: rest => needle.isPrefixOf (c :: rest) || listContains needle rest

/-- Python's substring test `needle in haystack` on strings. -/
def strContains (haystack needle : String) : Bool :=
  listContains needle.data haystack.data

/-- Python's `str.lower()`, modelled per character (the same map as core's
`String.toLower`, restated over the character list so that it evaluates by
kernel reduction). -/
def strLower (s : String) : String :=
  ⟨s.data.map Char.toLower⟩

/-- `anonymize_diagnosis` (anonymizer.py lines 108-133): empty input maps to
the restriction marker; otherwise lower-case and scan four keyword lists in
priority order (`any(word in diagnosis_lower for word in [...])`), first
match wins, with a generic fallback. -/
def anonymize_diagnosis (diagnosis : String) : String :=
  if diagnosis = "" then "[Restricted]"
  else
    let diagnosis_lower := strLower diagnosis
    if (["fever", "flu", "cold", "cough"].any fun word => strContains diagnosis_lower word) then
      "Respiratory Condition"
    else if (["diabetes", "sugar", "insulin"].any fun word => strContains diagnosis_lower word) then
      "Metabolic Condition"
    else if (["heart", "cardiac", "blood pressure"].any fun word => strContains diagnosis_lower word) then
      "Cardiovascular Condition"
    else if (["fracture", "injury", "wound"].any fun word => strContains diagnosis_lower word) then
      "Injury/Trauma"
    else
      "General Medical Condition"

/-- `prepare_patient_data_for_role` (anonymizer.py lines 136-182): the
four-way role dispatch producing the role-shaped view. -/
def prepare_patient_data_for_role (dec : String → Option String)
    (patient_data : PatientData) (role : String) : PatientData :=
  if role = "admin" then
    { patient_id := patient_data.patient_id
      name := decrypt_data dec patient_data.name
      contact := decrypt_data dec patient_data.contact
      diagnosis := decrypt_data dec patient_data.diagnosis
      date_added := patient_data.date_added }
  else if role = "doctor" then
    { patient_id := patient_data.patient_id
      name := anonymize_name patient_data.patient_id
      contact := anonymize_contact (decrypt_data dec patient_data.contact)
      diagnosis := anonymize_diagnosis (decrypt_data dec patient_data.diagnosis)
      date_added := patient_data.date_added }
  else if role = "receptionist" then
    { patient_id := patient_data.patient_id
      name := anonymize_name patient_data.patient_id
      contact := anonymize_contact (decrypt_data dec patient_data.contact)
      diagnosis := "[Restricted]"
      date_added := patient_data.date_added }
  else
    { patient_id := patient_data.patient_id
      name := "[Restricted]"
      contact := "[Restricted]"
      diagnosis := "[Restricted]"
      date_added := patient_data.date_added }

/-- `encrypt_data` with the Fernet cipher's per-call randomness made
explicit: the abstract cipher `enc₂` receives the random IV drawn for the
call as a second argument (a Fernet token embeds a fresh 128-bit IV).  The
wrapper logic is the same as `encrypt_data`: empty input short-circuits to
the empty string. -/
def encrypt_data_iv (enc₂ : String → Nat → String) (data : String) (iv : Nat) : String :=
  if data = "" then "" else enc₂ data iv

/-- Number of pairs of IV draws `(i, j)`, both taken from `{0, ..., N-1}`,
on which the ciphertext function `f` collides.  Out of the `N * N` equally
likely pairs of independent uniform draws, these are exactly the pairs where
encrypting the same plaintext twice yields the same ciphertext. -/
def collidingPairs (f : Nat → String) (N : Nat) : Nat :=
  ((Finset.range N ×ˢ Finset.range N).filter fun q => f q.1 = f q.2).card

/-- C1: for every role string outside `{admin, doctor, receptionist}`, the
engine returns the fully restricted view: `"[Restricted]"` in the name,
contact and diagnosis fields, with `patient_id` and `date_added` passed
through unchanged.  The engine is a total Lean function, so no exception can
arise on the unknown-role path: default-deny is an ordinary return value. -/
theorem unknown_role_fully_restricted (dec : String → Option String)
    (pd : PatientData) (role : String)
    (h : role ∉ (["admin", "doctor", "receptionist"] : List String)) :
    prepare_patient_data_for_role dec pd role =
      { patient_id := pd.patient_id
        name := "[Restricted]"
        contact := "[Restricted]"
        diagnosis := "[Restricted]"
        date_added := pd.date_added } := by
  simp only [List.mem_cons, List.mem_singleton, not_or] at h
  obtain ⟨h1, h2, h3⟩ := h
  simp [prepare_patient_data_for_role, h1, h2, h3]

/-- Witness for C1 at the concrete unknown role `"guest"`. -/
theorem unknown_role_fully_restricted_witness :
    prepare_patient_data_for_role (fun _ => none)
      { patient_id := 1, name := "n", contact := "c", diagnosis := "d", date_added := "t" }
      "guest" =
      { patient_id := 1, name := "[Restricted]", contact := "[Restricted]",
        diagnosis := "[Restricted]", date_added := "t" } :=
  unknown_role_fully_restricted (fun _ => none)
    { patient_id := 1, name := "n", contact := "c", diagnosis := "d", date_added := "t" }
    "guest" (by decide)

/-- C2: the doctor view's name field (and likewise the receptionist view's)
is the string `"ANON_"` followed by the record's `patient_id`, and the whole
doctor (resp. receptionist) view is independent of the stored name
ciphertext: two records differing only in the name field produce identical
views.  The decryption oracle `dec` is never applied to the name field on
these paths. -/
theorem doctor_receptionist_name_anonymized (dec : String → Option String)
    (pd : PatientData) (n₁ n₂ : String) :
    (prepare_patient_data_for_role dec pd "doctor").name =
        "ANON_" ++ toString pd.patient_id ∧
    (prepare_patient_data_for_role dec pd "receptionist").name =
        "ANON_" ++ toString pd.patient_id ∧
    prepare_patient_data_for_role dec { pd with name := n₁ } "doctor" =
        prepare_patient_data_for_role dec { pd with name := n₂ } "doctor" ∧
    prepare_patient_data_for_role dec { pd with name := n₁ } "receptionist" =
        prepare_patient_data_for_role dec { pd with name := n₂ } "receptionist" := by
  refine ⟨rfl, rfl, ?_, ?_⟩ <;> simp [prepare_patient_data_for_role]

/-- C7: `decrypt_data` on a non-empty input that the cipher rejects (corrupt,
tampered, or wrong-key ciphertext, modelled as `dec s = none`) returns the
fixed sentinel `"[Decryption Error]"`.  `decrypt_data` is a total Lean
function: the Python `except Exception` arm means no input can raise. -/
theorem decrypt_invalid_returns_sentinel (dec : String → Option String)
    (s : String) (hs : s ≠ "") (hfail : dec s = none) :
    decrypt_data dec s = "[Decryption Error]" := by
  simp [decrypt_data, hs, hfail]

/-- Witness for C7 at a concrete rejected input. -/
theorem decrypt_invalid_returns_sentinel_witness :
    decrypt_data (fun _ => none) "not-a-token" = "[Decryption Error]" :=
  decrypt_invalid_returns_sentinel (fun _ => none) "not-a-token" (by decide) rfl

/-- C3: contact masking returns the full placeholder `"XXX-XXX-XXXX"` on
empty input and on inputs shorter than 4 characters, and otherwise the fixed
prefix `"XXX-XXX-"` followed by exactly the last 4 characters of the input
verbatim (a length-4 suffix of the character list), with no special-casing of
non-numeric characters; includes the spec's concrete examples. -/
theorem anonymize_contact_behavior :
    anonymize_contact "" = "XXX-XXX-XXXX" ∧
    anonymize_contact "123" = "XXX-XXX-XXXX" ∧
    anonymize_contact "123-456-7890" = "XXX-XXX-7890" ∧
    (∀ c : String, c.length < 4 → anonymize_contact c = "XXX-XXX-XXXX") ∧
    (∀ c : String, 4 ≤ c.length →
      anonymize_contact c =
          "XXX-XXX-" ++ (⟨c.data.drop (c.data.length - 4)⟩ : String) ∧
      (c.data.drop (c.data.length - 4)).length = 4 ∧
      (c.data.drop (c.data.length - 4)).IsSuffix c.data) := by
  refine ⟨by decide, by decide, by decide, ?_, ?_⟩
  · intro c hc
    simp only [anonymize_contact]
    rw [if_pos (Or.inr hc)]
  · intro c hc
    have hlen : c.length = c.data.length := rfl
    have hnot : ¬(c = "" ∨ c.length < 4) := by
      rintro (rfl | h)
      · exact absurd hc (by decide)
      · omega
    refine ⟨?_, ?_, List.drop_suffix _ _⟩
    · simp only [anonymize_contact]
      rw [if_neg hnot, String.drop_eq, hlen]
    · rw [List.length_drop]
      omega

/-- Witness for C3, applying the universally quantified parts at concrete
inputs of length 2 and length 5. -/
theorem anonymize_contact_behavior_witness :
    anonymize_contact "ab" = "XXX-XXX-XXXX" ∧
    anonymize_contact "abcde" =
        "XXX-XXX-" ++ (⟨"abcde".data.drop ("abcde".data.length - 4)⟩ : String) :=
  ⟨anonymize_contact_behavior.2.2.2.1 "ab" (by decide),
   (anonymize_contact_behavior.2.2.2.2 "abcde" (by decide)).1⟩

/-- C10: for every input string whatsoever, `anonymize_contact` returns a
string of length exactly 12 beginning with `"XXX-XXX-"`; consequently the
doctor and receptionist views' contact fields always have this shape, so they
never expose more than the last 4 characters of whatever the contact field
decrypted to. -/
theorem contact_mask_fixed_shape :
    (∀ c : String, (anonymize_contact c).length = 12 ∧
      (anonymize_contact c).take 8 = "XXX-XXX-") ∧
    (∀ (dec : String → Option String) (pd : PatientData) (role : String),
      role = "doctor" ∨ role = "receptionist" →
      ((prepare_patient_data_for_role dec pd role).contact).length = 12 ∧
      ((prepare_patient_data_for_role dec pd role).contact).take 8 = "XXX-XXX-") := by
  have main : ∀ c : String, (anonymize_contact c).length = 12 ∧
      (anonymize_contact c).take 8 = "XXX-XXX-" := by
    intro c
    by_cases hcond : c = "" ∨ c.length < 4
    · simp only [anonymize_contact]
      rw [if_pos hcond]
      exact ⟨by decide, by decide⟩
    · have hlen : c.length = c.data.length := rfl
      have h4 : 4 ≤ c.length := by
        rcases Nat.lt_or_ge c.length 4 with h | h
        · exact absurd (Or.inr h) hcond
        · exact h
      have hdrop : (c.drop (c.length - 4)).length = 4 := by
        rw [String.drop_eq]
        show (c.data.drop (c.length - 4)).length = 4
        rw [List.length_drop]
        omega
      simp only [anonymize_contact]
      rw [if_neg hcond]
      constructor
      · rw [String.length_append, hdrop]
        decide
      · rw [String.take_eq]
        show (⟨("XXX-XXX-" ++ c.drop (c.length - 4)).data.take 8⟩ : String) = "XXX-XXX-"
        rw [String.data_append,
          List.take_left' (show ("XXX-XXX-".data).length = 8 by decide)]
  refine ⟨main, ?_⟩
  rintro dec pd role (rfl | rfl)
  · exact main (decrypt_data dec pd.contact)
  · exact main (decrypt_data dec pd.contact)

/-- Witness for C10: the doctor view of a concrete record has a length-12
contact field starting with the mask prefix. -/
theorem contact_mask_fixed_shape_witness :
    ((prepare_patient_data_for_role (fun _ => none)
        { patient_id := 2, name := "n", contact := "c", diagnosis := "d", date_added := "t" }
        "doctor").contact).length = 12 ∧
    ((prepare_patient_data_for_role (fun _ => none)
        { patient_id := 2, name := "n", contact := "c", diagnosis := "d", date_added := "t" }
        "doctor").contact).take 8 = "XXX-XXX-" :=
  contact_mask_fixed_shape.2 (fun _ => none)
    { patient_id := 2, name := "n", contact := "c", diagnosis := "d", date_added := "t" }
    "doctor" (Or.inl rfl)

/-- C4: for every non-empty diagnosis string, categorization lower-cases it
and tests the keyword groups in a fixed priority order with first match
winning: respiratory (`fever`/`flu`/`cold`/`cough`), then metabolic
(`diabetes`/`sugar`/`insulin`), then cardiovascular
(`heart`/`cardiac`/`blood pressure`), then injury/trauma
(`fracture`/`injury`/`wound`), and any other non-empty input falls back to
the generic category. -/
theorem anonymize_diagnosis_priority (d : String) (hd : d ≠ "") :
    (strContains (strLower d) "fever" = true ∨ strContains (strLower d) "flu" = true ∨
        strContains (strLower d) "cold" = true ∨ strContains (strLower d) "cough" = true →
      anonymize_diagnosis d = "Respiratory Condition") ∧
    (¬(strContains (strLower d) "fever" = true ∨ strContains (strLower d) "flu" = true ∨
        strContains (strLower d) "cold" = true ∨ strContains (strLower d) "cough" = true) →
      strContains (strLower d) "diabetes" = true ∨ strContains (strLower d) "sugar" = true ∨
        strContains (strLower d) "insulin" = true →
      anonymize_diagnosis d = "Metabolic Condition") ∧
    (¬(strContains (strLower d) "fever" = true ∨ strContains (strLower d) "flu" = true ∨
        strContains (strLower d) "cold" = true ∨ strContains (strLower d) "cough" = true) →
      ¬(strContains (strLower d) "diabetes" = true ∨ strContains (strLower d) "sugar" = true ∨
        strContains (strLower d) "insulin" = true) →
      strContains (strLower d) "heart" = true ∨ strContains (strLower d) "cardiac" = true ∨
        strContains (strLower d) "blood pressure" = true →
      anonymize_diagnosis d = "Cardiovascular Condition") ∧
    (¬(strContains (strLower d) "fever" = true ∨ strContains (strLower d) "flu" = true ∨
        strContains (strLower d) "cold" = true ∨ strContains (strLower d) "cough" = true) →
      ¬(strContains (strLower d) "diabetes" = true ∨ strContains (strLower d) "sugar" = true ∨
        strContains (strLower d) "insulin" = true) →
      ¬(strContains (strLower d) "heart" = true ∨ strContains (strLower d) "cardiac" = true ∨
        strContains (strLower d) "blood pressure" = true) →
      strContains (strLower d) "fracture" = true ∨ strContains (strLower d) "injury" = true ∨
        strContains (strLower d) "wound" = true →
      anonymize_diagnosis d = "Injury/Trauma") ∧
    (¬(strContains (strLower d) "fever" = true ∨ strContains (strLower d) "flu" = true ∨
        strContains (strLower d) "cold" = true ∨ strContains (strLower d) "cough" = true) →
      ¬(strContains (strLower d) "diabetes" = true ∨ strContains (strLower d) "sugar" = true ∨
        strContains (strLower d) "insulin" = true) →
      ¬(strContains (strLower d) "heart" = true ∨ strContains (strLower d) "cardiac" = true ∨
        strContains (strLower d) "blood pressure" = true) →
      ¬(strContains (strLower d) "fracture" = true ∨ strContains (strLower d) "injury" = true ∨
        strContains (strLower d) "wound" = true) →
      anonymize_diagnosis d = "General Medical Condition") := by
  have hR : ((["fever", "flu", "cold", "cough"].any fun word =>
      strContains (strLower d) word) = true) ↔
      (strContains (strLower d) "fever" = true ∨ strContains (strLower d) "flu" = true ∨
        strContains (strLower d) "cold" = true ∨ strContains (strLower d) "cough" = true) := by
    simp [List.any_cons, List.any_nil]
  have hM : ((["diabetes", "sugar", "insulin"].any fun word =>
      strContains (strLower d) word) = true) ↔
      (strContains (strLower d) "diabetes" = true ∨ strContains (strLower d) "sugar" = true ∨
        strContains (strLower d) "insulin" = true) := by
    simp [List.any_cons, List.any_nil]
  have hC : ((["heart", "cardiac", "blood pressure"].any fun word =>
      strContains (strLower d) word) = true) ↔
      (strContains (strLower d) "heart" = true ∨ strContains (strLower d) "cardiac" = true ∨
        strContains (strLower d) "blood pressure" = true) := by
    simp [List.any_cons, List.any_nil]
  have hI : ((["fracture", "injury", "wound"].any fun word =>
      strContains (strLower d) word) = true) ↔
      (strContains (strLower d) "fracture" = true ∨ strContains (strLower d) "injury" = true ∨
        strContains (strLower d) "wound" = true) := by
    simp [List.any_cons, List.any_nil]
  refine ⟨?_, ?_, ?_, ?_, ?_⟩
  · intro h1
    simp only [anonymize_diagnosis]
    rw [if_neg hd, if_pos (hR.mpr h1)]
  · intro h1 h2
    simp only [anonymize_diagnosis]
    rw [if_neg hd, if_neg (fun hb => h1 (hR.mp hb)), if_pos (hM.mpr h2)]
  · intro h1 h2 h3
    simp only [anonymize_diagnosis]
    rw [if_neg hd, if_neg (fun hb => h1 (hR.mp hb)), if_neg (fun hb => h2 (hM.mp hb)),
      if_pos (hC.mpr h3)]
  · intro h1 h2 h3 h4
    simp only [anonymize_diagnosis]
    rw [if_neg hd, if_neg (fun hb => h1 (hR.mp hb)), if_neg (fun hb => h2 (hM.mp hb)),
      if_neg (fun hb => h3 (hC.mp hb)), if_pos (hI.mpr h4)]
  · intro h1 h2 h3 h4
    simp only [anonymize_diagnosis]
    rw [if_neg hd, if_neg (fun hb => h1 (hR.mp hb)), if_neg (fun hb => h2 (hM.mp hb)),
      if_neg (fun hb => h3 (hC.mp hb)), if_neg (fun hb => h4 (hI.mp hb))]

/-- Witness for C4: a mixed-case respiratory diagnosis and a no-keyword
fallback input, each evaluated concretely. -/
theorem anonymize_diagnosis_priority_witness :
    anonymize_diagnosis "Fever and flu" = "Respiratory Condition" ∧
    anonymize_diagnosis "headache" = "General Medical Condition" :=
  ⟨(anonymize_diagnosis_priority "Fever and flu" (by decide)).1 (Or.inl (by decide)),
   (anonymize_diagnosis_priority "headache" (by decide)).2.2.2.2
     (by decide) (by decide) (by decide) (by decide)⟩

/-- C5 counterexample: it is NOT the case that every role that decrypts the
diagnosis maps an empty stored diagnosis to the restriction marker — the
admin branch returns `decrypt_data` of the empty string, which is `""`, not
`"[Restricted]"`.  Refuted at the record `{patient_id := 1, ..., diagnosis
:= ""}` with any decryption oracle. -/
theorem empty_diagnosis_restricted_cex :
    ¬(∀ (dec : String → Option String) (pd : PatientData), pd.diagnosis = "" →
        (prepare_patient_data_for_role dec pd "admin").diagnosis = "[Restricted]" ∧
        (prepare_patient_data_for_role dec pd "doctor").diagnosis = "[Restricted]") := by
  intro h
  have h1 := (h (fun _ => none)
    { patient_id := 1, name := "", contact := "", diagnosis := "", date_added := "t" } rfl).1
  exact absurd h1 (by decide)

/-- C5 amended: an empty stored diagnosis yields the restriction marker for
the doctor (via `anonymize_diagnosis ""`) and the receptionist (fixed), but
for the admin it passes through as the empty string; on all paths the result
is independent of the decryption oracle, i.e. the empty field short-circuits
without any decryption attempt. -/
theorem empty_diagnosis_restricted_amended (dec : String → Option String)
    (pd : PatientData) (h : pd.diagnosis = "") :
    (prepare_patient_data_for_role dec pd "doctor").diagnosis = "[Restricted]" ∧
    (prepare_patient_data_for_role dec pd "receptionist").diagnosis = "[Restricted]" ∧
    (prepare_patient_data_for_role dec pd "admin").diagnosis = "" ∧
    (∀ dec' : String → Option String,
      (prepare_patient_data_for_role dec' pd "doctor").diagnosis =
        (prepare_patient_data_for_role dec pd "doctor").diagnosis ∧
      (prepare_patient_data_for_role dec' pd "admin").diagnosis =
        (prepare_patient_data_for_role dec pd "admin").diagnosis) := by
  refine ⟨?_, rfl, ?_, ?_⟩
  · show anonymize_diagnosis (decrypt_data dec pd.diagnosis) = "[Restricted]"
    rw [h]
    rfl
  · show decrypt_data dec pd.diagnosis = ""
    rw [h]
    rfl
  · intro dec'
    have e : ∀ d0 : String → Option String, decrypt_data d0 "" = "" := fun _ => rfl
    constructor
    · show anonymize_diagnosis (decrypt_data dec' pd.diagnosis) =
        anonymize_diagnosis (decrypt_data dec pd.diagnosis)
      rw [h, e dec', e dec]
    · show decrypt_data dec' pd.diagnosis = decrypt_data dec pd.diagnosis
      rw [h, e dec', e dec]

/-- Witness for C5 amended, at a concrete record with empty diagnosis. -/
theorem empty_diagnosis_restricted_amended_witness :
    (prepare_patient_data_for_role (fun _ => none)
      { patient_id := 1, name := "n", contact := "c", diagnosis := "", date_added := "t" }
      "doctor").diagnosis = "[Restricted]" ∧
    (prepare_patient_data_for_role (fun _ => none)
      { patient_id := 1, name := "n", contact := "c", diagnosis := "", date_added := "t" }
      "admin").diagnosis = "" :=
  ⟨(empty_diagnosis_restricted_amended (fun _ => none)
      { patient_id := 1, name := "n", contact := "c", diagnosis := "", date_added := "t" }
      rfl).1,
   (empty_diagnosis_restricted_amended (fun _ => none)
      { patient_id := 1, name := "n", contact := "c", diagnosis := "", date_added := "t" }
      rfl).2.2.1⟩

/-- C6 counterexample: it is NOT the case that for every role in
{admin, doctor, receptionist} a failed decryption surfaces the sentinel
`"[Decryption Error]"` embedded in the derived view field — on the doctor
path the sentinel is fed through `anonymize_diagnosis`, which maps it to
`"General Medical Condition"`, a string not containing the sentinel at all
(the contact path likewise reduces it to `"XXX-XXX-ror]"`). -/
theorem decryption_failure_sentinel_cex :
    ¬(∀ (dec : String → Option String) (pd : PatientData) (role : String),
        role = "admin" ∨ role = "doctor" ∨ role = "receptionist" →
        pd.diagnosis ≠ "" → dec pd.diagnosis = none →
        strContains ((prepare_patient_data_for_role dec pd role).diagnosis)
          "[Decryption Error]" = true) := by
  intro h
  have h1 := h (fun _ => none)
    { patient_id := 1, name := "n", contact := "c", diagnosis := "x", date_added := "t" }
    "doctor" (Or.inr (Or.inl rfl)) (by decide) rfl
  exact absurd h1 (by decide)

/-- C6 amended: when the cipher rejects one stored field (modelled `dec field
= none`, the field non-empty), the admin view shows the sentinel
`"[Decryption Error]"` verbatim in that field; the doctor and receptionist
views show the anonymization transform of the sentinel instead (contact:
`"XXX-XXX-ror]"`, doctor diagnosis: `"General Medical Condition"`); the
other view fields are still produced by their own rules, unaffected — in
particular the admin name and contact fields remain `decrypt_data` of their
own ciphertexts whatever happens to the diagnosis — and the engine is a
total function, so no exception escapes. -/
theorem decryption_failure_field_local (dec : String → Option String)
    (pd : PatientData) :
    (pd.name ≠ "" → dec pd.name = none →
      (prepare_patient_data_for_role dec pd "admin").name = "[Decryption Error]") ∧
    (pd.contact ≠ "" → dec pd.contact = none →
      (prepare_patient_data_for_role dec pd "admin").contact = "[Decryption Error]" ∧
      (prepare_patient_data_for_role dec pd "doctor").contact = "XXX-XXX-ror]" ∧
      (prepare_patient_data_for_role dec pd "receptionist").contact = "XXX-XXX-ror]") ∧
    (pd.diagnosis ≠ "" → dec pd.diagnosis = none →
      (prepare_patient_data_for_role dec pd "admin").diagnosis = "[Decryption Error]" ∧
      (prepare_patient_data_for_role dec pd "doctor").diagnosis =
        "General Medical Condition" ∧
      (prepare_patient_data_for_role dec pd "receptionist").diagnosis = "[Restricted]") ∧
    ((prepare_patient_data_for_role dec pd "admin").name = decrypt_data dec pd.name ∧
     (prepare_patient_data_for_role dec pd "admin").contact = decrypt_data dec pd.contact ∧
     (prepare_patient_data_for_role dec pd "admin").patient_id = pd.patient_id ∧
     (prepare_patient_data_for_role dec pd "admin").date_added = pd.date_added) := by
  refine ⟨?_, ?_, ?_, rfl, rfl, rfl, rfl⟩
  · intro hne hfail
    show decrypt_data dec pd.name = "[Decryption Error]"
    simp [decrypt_data, hne, hfail]
  · intro hne hfail
    have hdec : decrypt_data dec pd.contact = "[Decryption Error]" := by
      simp [decrypt_data, hne, hfail]
    refine ⟨hdec, ?_, ?_⟩ <;>
    · show anonymize_contact (decrypt_data dec pd.contact) = "XXX-XXX-ror]"
      rw [hdec]
      decide
  · intro hne hfail
    have hdec : decrypt_data dec pd.diagnosis = "[Decryption Error]" := by
      simp [decrypt_data, hne, hfail]
    refine ⟨hdec, ?_, rfl⟩
    show anonymize_diagnosis (decrypt_data dec pd.diagnosis) = "General Medical Condition"
    rw [hdec]
    decide

/-- Witness for C6 amended, at a record all of whose fields the oracle
rejects. -/
theorem decryption_failure_field_local_witness :
    (prepare_patient_data_for_role (fun _ => none)
      { patient_id := 3, name := "cn", contact := "cc", diagnosis := "cd", date_added := "t" }
      "admin").diagnosis = "[Decryption Error]" ∧
    (prepare_patient_data_for_role (fun _ => none)
      { patient_id := 3, name := "cn", contact := "cc", diagnosis := "cd", date_added := "t" }
      "doctor").contact = "XXX-XXX-ror]" :=
  ⟨((decryption_failure_field_local (fun _ => none)
      { patient_id := 3, name := "cn", contact := "cc", diagnosis := "cd", date_added := "t" }).2.2.1
      (by decide) rfl).1,
   ((decryption_failure_field_local (fun _ => none)
      { patient_id := 3, name := "cn", contact := "cc", diagnosis := "cd", date_added := "t" }).2.1
      (by decide) rfl).2.1⟩

/-- C8: the repository's cipher wrappers round-trip.  Both wrappers are the
identity on the empty string, and for every non-empty plaintext `p`, if the
underlying authenticated cipher decrypts its own output (`dec (enc p) = some
p`, the documented Fernet contract) and produces a non-empty token (Fernet
tokens are never empty), then `decrypt_data dec (encrypt_data enc p) = p`. -/
theorem cipher_round_trip (enc : String → String) (dec : String → Option String) :
    encrypt_data enc "" = "" ∧
    decrypt_data dec "" = "" ∧
    (∀ p : String, p ≠ "" → dec (enc p) = some p → enc p ≠ "" →
      decrypt_data dec (encrypt_data enc p) = p) := by
  refine ⟨rfl, rfl, ?_⟩
  intro p hp hround hct
  simp only [encrypt_data, decrypt_data]
  rw [if_neg hp, if_neg hct, hround]

/-- Witness for C8 at a concrete plaintext and a concrete cipher pair
satisfying the round-trip hypothesis at that point. -/
theorem cipher_round_trip_witness :
    decrypt_data (fun _ => some "John") (encrypt_data (fun _ => "T") "John") = "John" :=
  (cipher_round_trip (fun _ => "T") (fun _ => some "John")).2.2 "John"
    (by decide) rfl (by decide)

/-- C9: nondeterministic encryption.  With the per-call random IV made
explicit, and given that the cipher's output determines the IV on a fixed
non-empty plaintext (every Fernet token embeds its IV verbatim, so encryption
is injective in the IV), two calls with different IV draws always produce
different ciphertexts, and out of the `N * N` equally likely ordered pairs of
independent uniform IV draws exactly `N` collide — i.e. the collision
probability is `N / N² = 1 / N`, which for Fernet's `N = 2^128` IV space is
the overwhelming-probability statement of the spec. -/
theorem encrypt_nondeterministic (enc₂ : String → Nat → String) (p : String) (N : Nat)
    (hp : p ≠ "")
    (hinj : ∀ i < N, ∀ j < N, enc₂ p i = enc₂ p j → i = j) :
    (∀ i < N, ∀ j < N, i ≠ j →
      encrypt_data_iv enc₂ p i ≠ encrypt_data_iv enc₂ p j) ∧
    collidingPairs (encrypt_data_iv enc₂ p) N = N := by
  have hiv : ∀ i, encrypt_data_iv enc₂ p i = enc₂ p i := by
    intro i
    simp [encrypt_data_iv, hp]
  constructor
  · intro i hi j hj hne heq
    rw [hiv, hiv] at heq
    exact hne (hinj i hi j hj heq)
  · have hset : ((Finset.range N ×ˢ Finset.range N).filter
        fun q => encrypt_data_iv enc₂ p q.1 = encrypt_data_iv enc₂ p q.2) =
        (Finset.range N).diag := by
      ext q
      simp only [Finset.mem_filter, Finset.mem_product, Finset.mem_range, Finset.mem_diag]
      constructor
      · rintro ⟨⟨h1, h2⟩, heq⟩
        rw [hiv, hiv] at heq
        exact ⟨h1, hinj q.1 h1 q.2 h2 heq⟩
      · rintro ⟨h1, heq⟩
        exact ⟨⟨h1, heq ▸ h1⟩, by rw [heq]⟩
    rw [collidingPairs, hset, Finset.diag_card, Finset.card_range]

/-- Witness for C9 with a 3-element IV space and a cipher that appends the
IV's decimal representation: exactly the 3 diagonal pairs collide. -/
theorem encrypt_nondeterministic_witness :
    collidingPairs (encrypt_data_iv (fun q iv => q ++ toString iv) "x") 3 = 3 :=
  (encrypt_nondeterministic (fun q iv => q ++ toString iv) "x" 3
    (by decide) (by decide)).2
